import Mathlib

/- Verification of the realtime transport / WebRTC signaling layer of the
   skapi client SDK.  The definitions below are a shallow embedding of the
   realtime module (connectRealtime, postRealtime, closeRTC, receiveRTC,
   connectRTC, getRealtimeUsers and their helpers).  JS objects keyed by
   peer / group id are modelled as association lists with JS property
   semantics: assignment replaces the first binding or appends, delete
   removes the key, lookup returns the first binding. -/

/-- Association list lookup, mirroring JS object property access. -/
def alookup {α : Type} (k : String) : List (String × α) → Option α
  | [] => none
  | (k', v) :: rest => if k' = k then some v else alookup k rest

/-- Association list update mirroring JS property assignment: replace the
first binding of the key, or append a new binding at the end. -/
def aset {α : Type} (k : String) (v : α) : List (String × α) → List (String × α)
  | [] => [(k, v)]
  | (k', v') :: rest => if k' = k then (k, v) :: rest else (k', v') :: aset k v rest

/-- Association list key removal mirroring the JS delete operator. -/
def adelete {α : Type} (k : String) (l : List (String × α)) : List (String × α) :=
  l.filter (fun p => p.1 != k)

/-- Keys of an association list (Object.keys). -/
def akeys {α : Type} (l : List (String × α)) : List String :=
  l.map Prod.fst

theorem alookup_aset_self {α : Type} (k : String) (v : α) (l : List (String × α)) :
    alookup k (aset k v l) = some v := by
  induction l with
  | nil => simp [aset, alookup]
  | cons p rest ih =>
    by_cases h : p.1 = k
    · simp [aset, alookup, h]
    · simp [aset, alookup, h, ih]

theorem aset_aset {α : Type} (k : String) (v1 v2 : α) (l : List (String × α)) :
    aset k v2 (aset k v1 l) = aset k v2 l := by
  induction l with
  | nil => simp [aset]
  | cons p rest ih =>
    by_cases h : p.1 = k
    · simp [aset, h]
    · simp [aset, h, ih]

theorem aset_of_alookup {α : Type} (k : String) (v : α) (l : List (String × α))
    (h : alookup k l = some v) : aset k v l = l := by
  induction l with
  | nil => simp [alookup] at h
  | cons p rest ih =>
    cases p with
    | mk k' v' =>
      by_cases hk : k' = k
      · simp [alookup, hk] at h
        simp [aset, hk, h]
      · simp [alookup, hk] at h
        simp [aset, hk, ih h]

theorem adelete_aset {α : Type} (k : String) (v : α) (l : List (String × α)) :
    adelete k (aset k v l) = adelete k l := by
  induction l with
  | nil => simp [aset, adelete]
  | cons p rest ih =>
    by_cases h : p.1 = k
    · simp [aset, adelete, h, List.filter]
    · simp only [aset, h, if_neg h]
      simp only [adelete, List.filter] at ih ⊢
      have hb : (p.1 != k) = true := by simp [h]
      simp [hb, ih]

theorem alookup_adelete {α : Type} (k : String) (l : List (String × α)) :
    alookup k (adelete k l) = none := by
  induction l with
  | nil => simp [adelete, alookup]
  | cons p rest ih =>
    by_cases h : p.1 = k
    · simpa [adelete, List.filter, h] using ih
    · have hb : (p.1 != k) = true := by simp [h]
      simp only [adelete, List.filter, hb] at ih ⊢
      simp [alookup, h, ih]

theorem alookup_aset_ne {α : Type} (k k' : String) (v : α) (l : List (String × α))
    (h : k' ≠ k) : alookup k' (aset k v l) = alookup k' l := by
  have h' : ¬(k = k') := fun hh => h hh.symm
  induction l with
  | nil => simp [aset, alookup, h']
  | cons p rest ih =>
    cases p with
    | mk q w =>
      by_cases hq : q = k
      · subst hq
        simp [aset, alookup, h', Ne.symm h]
      · by_cases hq' : q = k'
        · subst hq'
          simp [aset, alookup, hq, h]
        · simp [aset, alookup, hq, hq', ih]

theorem aset_of_alookup_none {α : Type} (k : String) (v : α) (l : List (String × α))
    (h : alookup k l = none) : aset k v l = l ++ [(k, v)] := by
  induction l with
  | nil => simp [aset]
  | cons p rest ih =>
    cases p with
    | mk q w =>
      by_cases hq : q = k
      · simp [alookup, hq] at h
      · simp [alookup, hq] at h
        simp [aset, hq, ih h]

/- ===== Session manager: reconnect backoff (connectRealtime socket.onclose) ===== -/

/-- Realtime callback events relevant to close handling. -/
inductive RealtimeEvent where
  | successEv
  | closeEv
  | reconnectPending (delayMs : Nat)
  | terminalError
deriving DecidableEq, Repr

/-- maxAttempts constant from socket.onclose. -/
def maxReconnectAttempts : Nat := 10

/-- The delay computed by socket.onclose:
Math.min(1000 * (2 ** reconnectAttempts), 30000). -/
def reconnectDelay (attempts : Nat) : Nat :=
  min (1000 * 2 ^ attempts) 30000

/-- Outcome of one unexpected (unclean) transport close. -/
structure CloseOutcome where
  attempts : Nat
  events : List RealtimeEvent
  scheduledReconnectDelay : Option Nat
deriving DecidableEq, Repr

/-- Shallow embedding of the unexpected-close branch of socket.onclose:
increment reconnectAttempts; if still below maxAttempts, emit a reconnect
event and schedule connectRealtime with the backoff delay; otherwise emit
the terminal error event and schedule nothing. -/
def onUncleanClose (reconnectAttempts : Nat) : CloseOutcome :=
  let a := reconnectAttempts + 1
  if a < maxReconnectAttempts then
    { attempts := a
      events := [RealtimeEvent.reconnectPending (reconnectDelay a)]
      scheduledReconnectDelay := some (reconnectDelay a) }
  else
    { attempts := a
      events := [RealtimeEvent.terminalError]
      scheduledReconnectDelay := none }

/-- C2: for every unexpected close, the reconnect delay scheduled for attempt
n equals min(1000 * 2^n, 30000), strictly increasing in n until the cap; and
on exactly the maximum attempt count the session emits one terminal error
event and schedules no further reconnect. -/
theorem C2_reconnect_backoff (n : Nat) :
    (onUncleanClose n).attempts = n + 1 ∧
    (n + 1 < maxReconnectAttempts →
      onUncleanClose n =
        { attempts := n + 1
          events := [RealtimeEvent.reconnectPending (min (1000 * 2 ^ (n + 1)) 30000)]
          scheduledReconnectDelay := some (min (1000 * 2 ^ (n + 1)) 30000) }) ∧
    (reconnectDelay n < 30000 → reconnectDelay n < reconnectDelay (n + 1)) ∧
    (n + 1 = maxReconnectAttempts →
      onUncleanClose n =
        { attempts := n + 1
          events := [RealtimeEvent.terminalError]
          scheduledReconnectDelay := none }) := by
  refine ⟨?_, ?_, ?_, ?_⟩
  · unfold onUncleanClose
    by_cases h : n + 1 < maxReconnectAttempts <;> simp [h]
  · intro h
    simp [onUncleanClose, h, reconnectDelay]
  · intro h
    unfold reconnectDelay at h ⊢
    have h1 : 1000 * 2 ^ n < 30000 := by
      by_contra hc
      push_neg at hc
      simp [Nat.min_eq_right hc] at h
    rw [Nat.min_eq_left (Nat.le_of_lt h1)]
    have h2 : 1000 * 2 ^ n < 1000 * 2 ^ (n + 1) := by
      have hp : (2 : Nat) ^ n < 2 ^ (n + 1) := Nat.pow_lt_pow_succ (by norm_num)
      omega
    exact lt_min h2 h1
  · intro h
    simp [onUncleanClose, h, maxReconnectAttempts]

/-- Witness for C2 at n = 2 and at the terminal attempt n = 9. -/
theorem C2_reconnect_backoff_witness :
    onUncleanClose 2 =
      { attempts := 3
        events := [RealtimeEvent.reconnectPending (min (1000 * 2 ^ 3) 30000)]
        scheduledReconnectDelay := some (min (1000 * 2 ^ 3) 30000) } ∧
    reconnectDelay 2 < reconnectDelay 3 ∧
    onUncleanClose 9 =
      { attempts := 10
        events := [RealtimeEvent.terminalError]
        scheduledReconnectDelay := none } := by
  refine ⟨?_, ?_, ?_⟩
  · exact (C2_reconnect_backoff 2).2.1 (by decide)
  · exact (C2_reconnect_backoff 2).2.2.1 (by decide)
  · exact (C2_reconnect_backoff 9).2.2.2 (by decide)

/- ===== Outbound frames and errors ===== -/

/-- Error codes corresponding to the SkapiError throws in the realtime module. -/
inductive SkapiErr where
  | invalidParameter
  | noRealtimeConnection
  | noPeerConnection
  | duplicateDataChannel
  | notInRecipientGroup
  | connectionNotOpen
  | typeErr
deriving DecidableEq, Repr

/-- Outbound socket frames produced by the realtime module (socket.send payloads). -/
inductive OutFrame where
  | sendMessage (uid : String) (content : String)
  | broadcast (rid : String) (content : String)
  | rtcReject (uid : String)
  | rtcPickup (uid : String)
  | rtcAnswer (uid : String)
deriving DecidableEq, Repr

/- ===== postRealtime ===== -/

/-- Shallow embedding of postRealtime.  The UserId validator lives in
src/utils/validator (not part of this repository snapshot), so it is taken
as an abstract boolean predicate; the joined room is the current value of
the module variable socket room.  hasSocket models the null check on the
socket, readyOpen models socket.readyState being 1. -/
def postRealtime (validUserId : String → Bool) (hasSocket readyOpen : Bool)
    (joinedRoom : Option String) (message recipient : String) : Except SkapiErr OutFrame :=
  if !hasSocket then Except.error SkapiErr.noRealtimeConnection
  else if recipient = "" then Except.error SkapiErr.invalidParameter
  else if readyOpen then
    if validUserId recipient then Except.ok (OutFrame.sendMessage recipient message)
    else if joinedRoom ≠ some recipient then Except.error SkapiErr.notInRecipientGroup
    else Except.ok (OutFrame.broadcast recipient message)
  else Except.error SkapiErr.connectionNotOpen

/-- C4: over an open realtime connection, a send to a valid user id produces a
sendMessage frame addressed by uid; a send to a recipient that is not a valid
user id but equals the currently joined room produces a broadcast frame
addressed by rid with the identical message content; anything else throws and
no frame is produced. -/
theorem C4_postRealtime_addressing (validUserId : String → Bool)
    (joinedRoom : Option String) (message recipient : String)
    (hr : recipient ≠ "") :
    (validUserId recipient = true →
      postRealtime validUserId true true joinedRoom message recipient =
        Except.ok (OutFrame.sendMessage recipient message)) ∧
    (validUserId recipient = false → joinedRoom = some recipient →
      postRealtime validUserId true true joinedRoom message recipient =
        Except.ok (OutFrame.broadcast recipient message)) ∧
    (validUserId recipient = false → joinedRoom ≠ some recipient →
      postRealtime validUserId true true joinedRoom message recipient =
        Except.error SkapiErr.notInRecipientGroup) := by
  refine ⟨?_, ?_, ?_⟩
  · intro hv
    simp [postRealtime, hr, hv]
  · intro hv hjoin
    simp [postRealtime, hr, hv, hjoin]
  · intro hv hjoin
    simp [postRealtime, hr, hv, hjoin]

/-- Witness for C4: user send, room broadcast and the failing case at
concrete inputs. -/
theorem C4_postRealtime_addressing_witness :
    postRealtime (fun s => s = "U1") true true (some "R1") "hello" "U1" =
      Except.ok (OutFrame.sendMessage "U1" "hello") ∧
    postRealtime (fun s => s = "U1") true true (some "R1") "hello" "R1" =
      Except.ok (OutFrame.broadcast "R1" "hello") ∧
    postRealtime (fun s => s = "U1") true true (some "R1") "hello" "R2" =
      Except.error SkapiErr.notInRecipientGroup := by
  refine ⟨?_, ?_, ?_⟩
  · exact (C4_postRealtime_addressing (fun s => s = "U1") (some "R1") "hello" "U1"
      (by decide)).1 (by decide)
  · exact (C4_postRealtime_addressing (fun s => s = "U1") (some "R1") "hello" "R1"
      (by decide)).2.1 (by decide) (by decide)
  · exact (C4_postRealtime_addressing (fun s => s = "U1") (some "R1") "hello" "R2"
      (by decide)).2.2 (by decide) (by decide)

/- ===== Presence tracker: notice handling in socket.onmessage ===== -/

/-- JS String.includes(sub). -/
def includesStr (s sub : String) : Bool :=
  (s.splitOn sub).length != 1

/-- Condition of the leave/disconnect notice branch. -/
def isLeaveMsg (m : String) : Bool :=
  includesStr m "has left the message group." || includesStr m "has been disconnected."

/-- Condition of the join notice branch. -/
def isJoinMsg (m : String) : Bool :=
  includesStr m "has joined the message group."

/-- Data of a notice frame: sender (#user_id), sender connection id (#scid)
and the notice text (#notice). -/
structure Notice where
  sender : String
  senderCid : String
  message : String
deriving DecidableEq, Repr

/-- User id to connection id list map of one group. -/
abbrev RoomUsers := List (String × List String)

/-- The roomList module variable: group id to RoomUsers. -/
abbrev RoomList := List (String × RoomUsers)

/-- First statement of the leave branch: if roomList[room][user] exists,
filter the sender connection id out of it. -/
def leaveFilterPass (room sender cid : String) (rl : RoomList) : RoomList :=
  match alookup room rl with
  | none => rl
  | some users =>
    match alookup sender users with
    | none => rl
    | some l => aset room (aset sender (l.filter (fun v => v != cid)) users) rl

/-- Second statement of the leave branch: if roomList[room][user] exists and
is empty, delete the user entry. -/
def leaveDeletePass (room sender : String) (rl : RoomList) : RoomList :=
  match alookup room rl with
  | none => rl
  | some users =>
    match alookup sender users with
    | none => rl
    | some l => if l.isEmpty then aset room (adelete sender users) rl else rl

/-- The roomList[room]?[user] optional chain. -/
def trackedEntry (room sender : String) (rl : RoomList) : Option (List String) :=
  (alookup room rl).bind (fun users => alookup sender users)

/-- Shallow embedding of the notice-handling block of socket.onmessage while a
room is joined.  Returns the updated roomList and whether the frame reaches the
registered realtime callback (the early returns in the source skip it). -/
def noticeStep (room : String) (rl : RoomList) (n : Notice) : RoomList × Bool :=
  if isLeaveMsg n.message then
    let rl2 := leaveDeletePass room n.sender (leaveFilterPass room n.sender n.senderCid rl)
    (rl2, !(trackedEntry room n.sender rl2).isSome)
  else if isJoinMsg n.message then
    let users0 := (alookup room rl).getD []
    match alookup n.sender users0 with
    | none => (aset room (aset n.sender [n.senderCid] users0) rl, true)
    | some l =>
      if l.contains n.senderCid then (aset room users0 rl, false)
      else (aset room (aset n.sender (l ++ [n.senderCid]) users0) rl, false)
  else (rl, true)

/-- Replay semantics written from the spec wording: a join appends the
connection id to the sender's set only if absent; a leave/disconnect removes
it and deletes the user entry once its set is empty; duplicate joins and
leaves of untracked connection ids leave the map unchanged. -/
def specReplayStep (room : String) (rl : RoomList) (n : Notice) : RoomList :=
  if isLeaveMsg n.message then
    match alookup room rl with
    | none => rl
    | some users =>
      match alookup n.sender users with
      | none => rl
      | some l =>
        let l' := l.filter (fun v => v != n.senderCid)
        if l'.isEmpty then aset room (adelete n.sender users) rl
        else aset room (aset n.sender l' users) rl
  else if isJoinMsg n.message then
    let users0 := (alookup room rl).getD []
    match alookup n.sender users0 with
    | none => aset room (aset n.sender [n.senderCid] users0) rl
    | some l =>
      if l.contains n.senderCid then rl
      else aset room (aset n.sender (l ++ [n.senderCid]) users0) rl
  else rl

theorem noticeStep_eq_specReplay (room : String) (rl : RoomList) (n : Notice) :
    (noticeStep room rl n).1 = specReplayStep room rl n := by
  by_cases hL : isLeaveMsg n.message
  · simp only [noticeStep, specReplayStep, hL, if_pos]
    cases h1 : alookup room rl with
    | none => simp [leaveFilterPass, leaveDeletePass, h1]
    | some users =>
      cases h2 : alookup n.sender users with
      | none => simp [leaveFilterPass, leaveDeletePass, h1, h2]
      | some l =>
        simp only [leaveFilterPass, h1, h2]
        simp only [leaveDeletePass, alookup_aset_self]
        by_cases hE : (l.filter (fun v => v != n.senderCid)).isEmpty
        · simp only [hE, if_pos]
          rw [aset_aset, adelete_aset]
        · simp [hE]
  · by_cases hJ : isJoinMsg n.message
    · simp only [noticeStep, specReplayStep, hL, hJ, if_neg, if_pos, Bool.false_eq_true,
        not_false_eq_true]
      cases h2 : alookup n.sender ((alookup room rl).getD []) with
      | none => simp
      | some l =>
        cases hc : l.contains n.senderCid with
        | true =>
          dsimp only
          rw [hc]
          simp only [if_pos]
          cases h1 : alookup room rl with
          | none =>
            rw [h1] at h2
            simp [alookup] at h2
          | some users =>
            simp only [Option.getD_some]
            exact aset_of_alookup room users rl h1
        | false =>
          dsimp only
          rw [hc]
          simp
    · simp [noticeStep, specReplayStep, hL, hJ]

/-- C5: for any sequence of join/leave/disconnect notices on the joined group,
the tracker's final membership map equals the replay of those notices in
receipt order under the spec's replay semantics (join appends only if absent,
leave removes and deletes emptied user entries, duplicate joins and untracked
leaves are no-ops). -/
theorem C5_notice_replay (room : String) (ns : List Notice) (init : RoomList) :
    ns.foldl (fun rl n => (noticeStep room rl n).1) init =
      ns.foldl (specReplayStep room) init := by
  induction ns generalizing init with
  | nil => rfl
  | cons n rest ih =>
    simp only [List.foldl_cons]
    rw [noticeStep_eq_specReplay, ih]

theorem trackedEntry_after_leave (room sender cid : String) (rl : RoomList) :
    trackedEntry room sender
        (leaveDeletePass room sender (leaveFilterPass room sender cid rl)) =
      Option.bind (trackedEntry room sender rl) (fun l =>
        if (l.filter (fun v => v != cid)).isEmpty then none
        else some (l.filter (fun v => v != cid))) := by
  cases h1 : alookup room rl with
  | none => simp [leaveFilterPass, leaveDeletePass, trackedEntry, h1]
  | some users =>
    cases h2 : alookup sender users with
    | none => simp [leaveFilterPass, leaveDeletePass, trackedEntry, h1, h2]
    | some l =>
      simp only [trackedEntry, leaveFilterPass, h1, h2]
      simp only [leaveDeletePass, alookup_aset_self]
      dsimp only [Option.bind]
      rw [h2]
      dsimp only
      by_cases hE : (l.filter (fun v => v != cid)).isEmpty = true
      · rw [if_pos hE, if_pos hE, alookup_aset_self]
        dsimp only
        exact alookup_adelete sender (aset sender (l.filter (fun v => v != cid)) users)
      · rw [if_neg hE, if_neg hE, alookup_aset_self]
        dsimp only
        exact alookup_aset_self sender (l.filter (fun v => v != cid)) users

/-- C10: while a room is joined, a join notice for a user who already has a
tracked entry, and a leave/disconnect notice after which the sender still has
at least one tracked connection id, skip the registered callback (early
return after the membership update); every other notice reaches the callback
after the map update. -/
theorem C10_notice_callback_gating (room : String) (rl : RoomList) (n : Notice) :
    (noticeStep room rl n).2 = false ↔
      ((isLeaveMsg n.message = true ∧
          ∃ l, trackedEntry room n.sender (noticeStep room rl n).1 = some l ∧ l ≠ []) ∨
       (isLeaveMsg n.message = false ∧ isJoinMsg n.message = true ∧
          (alookup n.sender ((alookup room rl).getD [])).isSome = true)) := by
  by_cases hL : isLeaveMsg n.message
  · have hafter := trackedEntry_after_leave room n.sender n.senderCid rl
    unfold noticeStep
    rw [if_pos hL]
    dsimp only
    cases ht : trackedEntry room n.sender rl with
    | none =>
      rw [ht] at hafter
      dsimp only [Option.bind] at hafter
      rw [hafter]
      simp [hL]
    | some l =>
      rw [ht] at hafter
      dsimp only [Option.bind] at hafter
      by_cases hE : (l.filter (fun v => v != n.senderCid)).isEmpty = true
      · rw [if_pos hE] at hafter
        rw [hafter]
        simp [hL]
      · rw [if_neg hE] at hafter
        rw [hafter]
        have hne : l.filter (fun v => v != n.senderCid) ≠ [] := by
          intro hnil
          rw [hnil] at hE
          exact hE rfl
        simp [hL, hne]
  · rw [Bool.not_eq_true] at hL
    by_cases hJ : isJoinMsg n.message
    · simp only [noticeStep, hL, hJ, Bool.false_eq_true, if_neg, if_pos, not_false_eq_true]
      cases h2 : alookup n.sender ((alookup room rl).getD []) with
      | none => simp [hL]
      | some l =>
        cases hc : l.contains n.senderCid with
        | true =>
          dsimp only
          rw [hc]
          simp [hL, hJ]
        | false =>
          dsimp only
          rw [hc]
          simp [hL, hJ]
    · rw [Bool.not_eq_true] at hJ
      simp [noticeStep, hL, hJ]

/- ===== Signaling engine: peer connections, buffers, closeRTC, receiveRTC ===== -/

/-- A signal applied to a peer connection handle (setRemoteDescription with an
offer or an answer, addIceCandidate). -/
inductive Sig where
  | offer (s : String)
  | cand (c : String)
  | answer (s : String)
deriving DecidableEq, Repr

/-- Peer connection handle: the trace of applied remote signals and whether
close() has been called. -/
structure PeerConn where
  applied : List Sig := []
  closed : Bool := false
deriving DecidableEq, Repr

/-- Data channel readyState, reduced to what closeRTC inspects. -/
inductive ChanSt where
  | opened
  | closed
deriving DecidableEq, Repr

/-- Content of an rtc frame (the fields socket.onmessage inspects). -/
structure RtcMsgContent where
  reject : Bool := false
  candidate : Option String := none
  sdpoffer : Option String := none
  pickup : Bool := false
  sdpanswer : Option String := none
  dataChannels : Option (List String) := none
deriving DecidableEq, Repr

/-- The module-level mutable state of the signaling engine: rtcSdpOffer and
rtcCandidates buffers, peerConnection and dataChannel maps, the caller and
receiver ringing flag sets, and receivedDataChannelList. -/
structure RtcState where
  sdpOfferBuf : List (String × List String) := []
  candBuf : List (String × List String) := []
  peerConn : List (String × PeerConn) := []
  dataCh : List (String × List (String × ChanSt)) := []
  receiverRinging : List String := []
  callerRinging : List String := []
  receivedDataChannelList : Option (List String) := none
deriving DecidableEq, Repr

/-- sdpanswer helper: apply the remote offer to the sender's peer connection,
create the local answer and send it.  Callers have already ensured the
socket exists. -/
def sdpanswerM (sender offer : String) (st : RtcState) :
    Except SkapiErr (RtcState × List OutFrame) :=
  match alookup sender st.peerConn with
  | none => Except.error SkapiErr.noPeerConnection
  | some pc =>
    let pc' := { pc with applied := pc.applied ++ [Sig.offer offer] }
    Except.ok ({ st with peerConn := aset sender pc' st.peerConn }, [OutFrame.rtcAnswer sender])

/-- addIceCandidate helper: apply a remote candidate to the sender's peer
connection. -/
def addIceCandidateM (sender cand : String) (st : RtcState) : Except SkapiErr RtcState :=
  match alookup sender st.peerConn with
  | none => Except.error SkapiErr.noPeerConnection
  | some pc =>
    let pc' := { pc with applied := pc.applied ++ [Sig.cand cand] }
    Except.ok { st with peerConn := aset sender pc' st.peerConn }

/-- Actions performed by closeRTC, in order. -/
inductive TeardownAct where
  | closeChannel (label : String)
  | closePeer
  | emitConnState
deriving DecidableEq, Repr

/-- Shallow embedding of closeRTC: drop the sender's offer and candidate
buffers, throw on a missing recipient, close each data channel that is not
already closed and drop the channel map, then close the peer connection if
present (emitting one connectionstatechange callback) and drop its entry. -/
def closeRTCRun (recipient : String) (st : RtcState) :
    Except SkapiErr (RtcState × List TeardownAct) :=
  let st0 := { st with sdpOfferBuf := adelete recipient st.sdpOfferBuf,
                       candBuf := adelete recipient st.candBuf }
  if recipient = "" then Except.error SkapiErr.invalidParameter
  else
    let chans := (alookup recipient st0.dataCh).getD []
    let closeActs := (chans.filter (fun c => c.2 != ChanSt.closed)).map
      (fun c => TeardownAct.closeChannel c.1)
    let st1 := { st0 with dataCh := adelete recipient st0.dataCh }
    match alookup recipient st1.peerConn with
    | some pc =>
      let acts := closeActs ++
        (if pc.closed then [] else [TeardownAct.closePeer]) ++ [TeardownAct.emitConnState]
      Except.ok ({ st1 with peerConn := adelete recipient st1.peerConn }, acts)
    | none =>
      Except.ok ({ st1 with peerConn := adelete recipient st1.peerConn }, closeActs)

/-- Result of handling one rtc frame in socket.onmessage: the new engine
state, the receiveRTC handle attached to the surfaced message (if any),
whether the frame reaches the registered realtime callback, and the frames
sent. -/
structure RtcMsgResult where
  st : RtcState
  handle : Option RtcMsgContent
  cbInvoked : Bool
  frames : List OutFrame
deriving DecidableEq, Repr

/-- Shallow embedding of the rtc branch of socket.onmessage for a frame whose
sender is not the local user: reject tears down and returns early; a candidate
is applied if a peer connection exists, else buffered; an offer is answered if
a peer connection exists, else buffered (attaching a receiveRTC handle to the
first offer while not ringing); pickup resolves the caller ringing entry; an
answer is applied to the sender's peer connection. -/
def handleRtcMsg (sender : String) (rtc : RtcMsgContent) (st : RtcState) :
    Except SkapiErr RtcMsgResult :=
  if rtc.reject then
    if (alookup sender st.peerConn).isSome then
      match closeRTCRun sender st with
      | Except.error e => Except.error e
      | Except.ok r =>
        Except.ok { st := r.1, handle := none, cbInvoked := false, frames := [] }
    else
      Except.ok { st := st, handle := none, cbInvoked := false, frames := [] }
  else
    match (match rtc.candidate with
      | none => Except.ok st
      | some c =>
        if (alookup sender st.peerConn).isSome then addIceCandidateM sender c st
        else
          let buf' := aset sender ((alookup sender st.candBuf).getD [] ++ [c]) st.candBuf
          Except.ok { st with candBuf := buf' }) with
    | Except.error e => Except.error e
    | Except.ok st1 =>
      match (match rtc.sdpoffer with
        | none => Except.ok (st1, (none : Option RtcMsgContent), ([] : List OutFrame))
        | some o =>
          if (alookup sender st1.peerConn).isSome then
            match sdpanswerM sender o st1 with
            | Except.error e => Except.error e
            | Except.ok r => Except.ok (r.1, none, r.2)
          else
            let dclist := match rtc.dataChannels with
              | some dcs => some dcs
              | none => st1.receivedDataChannelList
            let stA := { st1 with receivedDataChannelList := dclist }
            let ringing := stA.receiverRinging.contains sender
            let handle := if ringing then (none : Option RtcMsgContent) else some rtc
            let ringing' := if ringing then stA.receiverRinging else stA.receiverRinging ++ [sender]
            let buf' := aset sender ((alookup sender stA.sdpOfferBuf).getD [] ++ [o]) stA.sdpOfferBuf
            let stB := { stA with receiverRinging := ringing', sdpOfferBuf := buf' }
            Except.ok (stB, handle, [])) with
      | Except.error e => Except.error e
      | Except.ok r2 =>
        let st3 := if rtc.pickup && r2.1.callerRinging.contains sender then
            { r2.1 with callerRinging := r2.1.callerRinging.filter (fun v => v != sender) }
          else r2.1
        match (match rtc.sdpanswer with
          | none => Except.ok st3
          | some a =>
            match alookup sender st3.peerConn with
            | some pc =>
              let pc' := { pc with applied := pc.applied ++ [Sig.answer a] }
              Except.ok { st3 with peerConn := aset sender pc' st3.peerConn }
            | none => Except.error SkapiErr.typeErr) with
        | Except.error e => Except.error e
        | Except.ok st4 =>
          Except.ok { st := st4, handle := r2.2.1, cbInvoked := true, frames := r2.2.2 }

/-- Apply each buffered remote offer in order via sdpanswer, collecting the
answer frames. -/
def applyOffers (sender : String) : List String → RtcState →
    Except SkapiErr (RtcState × List OutFrame)
  | [], st => Except.ok (st, [])
  | o :: rest, st =>
    match sdpanswerM sender o st with
    | Except.error e => Except.error e
    | Except.ok r =>
      match applyOffers sender rest r.1 with
      | Except.error e => Except.error e
      | Except.ok r2 => Except.ok (r2.1, r.2 ++ r2.2)

/-- Apply each buffered remote candidate in order. -/
def applyCands (sender : String) : List String → RtcState → Except SkapiErr RtcState
  | [], st => Except.ok st
  | c :: rest, st =>
    match addIceCandidateM sender c st with
    | Except.error e => Except.error e
    | Except.ok st1 => applyCands sender rest st1

/-- Callback events delivered through the per-peer callback. -/
inductive PeerCbEvent where
  | pickupEv (sender : String)
deriving DecidableEq, Repr

/-- Result of invoking the receiveRTC handle. -/
structure AcceptResult where
  st : RtcState
  frames : List OutFrame
  events : List PeerCbEvent
deriving DecidableEq, Repr

/-- Shallow embedding of the async function returned by receiveRTC, without a
media stream request.  hasSocket models the socket null check, reject is
params.reject, captured is the rtc content of the offer frame the handle was
created from.  Accepting creates the peer connection and channel map if
missing, flushes the buffered offers then (only in that case) the buffered
candidates, re-applies the captured offer if present, sends the pickup frame,
emits the pickup callback and clears the receiver ringing flag. -/
def receiveRTCRun (hasSocket : Bool) (sender : String) (captured : RtcMsgContent)
    (reject : Bool) (st : RtcState) : Except SkapiErr AcceptResult :=
  if !hasSocket then Except.error SkapiErr.noRealtimeConnection
  else if reject then
    Except.ok { st := st, frames := [OutFrame.rtcReject sender], events := [] }
  else
    let st1 := if (alookup sender st.peerConn).isSome then st
      else { st with peerConn := aset sender {} st.peerConn }
    let st2 := if (alookup sender st1.dataCh).isSome then st1
      else { st1 with dataCh := aset sender [] st1.dataCh }
    let offers := (alookup sender st2.sdpOfferBuf).getD []
    match (if offers.length > 0 then
            match applyOffers sender offers st2 with
            | Except.error e => Except.error e
            | Except.ok r =>
              let stB := { r.1 with sdpOfferBuf := adelete sender r.1.sdpOfferBuf }
              let cands := (alookup sender stB.candBuf).getD []
              if cands.length > 0 then
                match applyCands sender cands stB with
                | Except.error e => Except.error e
                | Except.ok stC =>
                  Except.ok ({ stC with candBuf := adelete sender stC.candBuf }, r.2)
              else Except.ok (stB, r.2)
           else Except.ok (st2, ([] : List OutFrame))) with
    | Except.error e => Except.error e
    | Except.ok r4 =>
      match (match captured.sdpoffer with
        | some o => sdpanswerM sender o r4.1
        | none => Except.ok (r4.1, ([] : List OutFrame))) with
      | Except.error e => Except.error e
      | Except.ok r5 =>
        let st6 := { r5.1 with
          receiverRinging := r5.1.receiverRinging.filter (fun v => v != sender) }
        Except.ok { st := st6
                    frames := r4.2 ++ r5.2 ++ [OutFrame.rtcPickup sender]
                    events := [PeerCbEvent.pickupEv sender] }

/- ===== connectRTC data channel creation (C9) ===== -/

/-- One entry of connectRTC's dataChannelOptions. -/
structure DataChannelOption where
  ordered : Bool := true
  maxRetransmits : Nat := 10
  protocol : String := "default"
deriving DecidableEq, Repr

/-- The expression protocol or default from the connectRTC channel loop. -/
def effectiveLabel (p : String) : String :=
  if p = "" then "default" else p

/-- Shallow embedding of the data channel creation loop in connectRTC: for
each requested option, throw if the label is already present for the peer,
otherwise create a channel under that label. -/
def createDataChannels (existing : List (String × ChanSt)) :
    List DataChannelOption → Except SkapiErr (List (String × ChanSt))
  | [] => Except.ok existing
  | o :: rest =>
    let protocol := effectiveLabel o.protocol
    if (alookup protocol existing).isSome then Except.error SkapiErr.duplicateDataChannel
    else createDataChannels (aset protocol ChanSt.opened existing) rest

/- ===== getRealtimeUsers pending query dedup (C7) ===== -/

/-- State of the membership query machinery: the roomPending map (group to
in-flight promise), a promise allocation counter, and the log of requests
actually issued to the server. -/
structure QueryState where
  roomPending : List (String × Nat) := []
  nextId : Nat := 0
  requestLog : List Nat := []
deriving DecidableEq, Repr

/-- Shallow embedding of getRealtimeUsers' dedup logic: an unfiltered query
for a group with a pending entry returns that pending promise and issues no
request; otherwise a request is issued and, when unfiltered, recorded as
pending.  Promises are identified by allocation order. -/
def getRealtimeUsersRun (group : String) (userId : Option String) (st : QueryState) :
    Nat × QueryState :=
  match userId with
  | none =>
    match alookup group st.roomPending with
    | some pid => (pid, st)
    | none =>
      let pid := st.nextId
      (pid, { roomPending := aset group pid st.roomPending
              nextId := pid + 1
              requestLog := st.requestLog ++ [pid] })
  | some _ =>
    let pid := st.nextId
    (pid, { st with nextId := pid + 1, requestLog := st.requestLog ++ [pid] })

/-- The .finally handler of the issued request: delete the group's pending
entry, regardless of whether the request succeeded. -/
def settleQuery (group : String) (success : Bool) (st : QueryState) : QueryState :=
  { st with roomPending := adelete group st.roomPending }

/- ===== socket.onmessage parse and dispatch (C8) ===== -/

/-- Combined session state touched by socket.onmessage. -/
structure SessionState where
  roomList : RoomList := []
  rtc : RtcState := {}
deriving DecidableEq, Repr

/-- A classified inbound frame. -/
inductive InEvent where
  | noticeEv (n : Notice)
  | rtcEv (sender : String) (content : RtcMsgContent)
  | plainMessage (m : String)
deriving DecidableEq, Repr

/-- Dispatch of one parsed frame: membership notices update the tracker while
a room is joined, rtc frames from other users run the signaling engine,
everything else goes straight to the callback.  The Bool records whether the
registered realtime callback is invoked for the frame. -/
def processEvent (joinedRoom : Option String) (selfId : String) (ev : InEvent)
    (st : SessionState) : Except SkapiErr (SessionState × Bool) :=
  match ev with
  | InEvent.noticeEv n =>
    match joinedRoom with
    | some room =>
      let r := noticeStep room st.roomList n
      Except.ok ({ st with roomList := r.1 }, r.2)
    | none => Except.ok (st, true)
  | InEvent.rtcEv sender content =>
    if sender = selfId then Except.ok (st, true)
    else
      match handleRtcMsg sender content st.rtc with
      | Except.error e => Except.error e
      | Except.ok r => Except.ok ({ st with rtc := r.st }, r.cbInvoked)
  | InEvent.plainMessage _ => Except.ok (st, true)

/-- Shallow embedding of socket.onmessage's entry: decodeURI + JSON.parse
inside try/catch; a parse failure returns from the handler before any state
is touched and before the callback is reached. -/
def socketOnMessage (parse : String → Option InEvent) (joinedRoom : Option String)
    (selfId : String) (raw : String) (st : SessionState) :
    Except SkapiErr (SessionState × Bool) :=
  match parse raw with
  | none => Except.ok (st, false)
  | some ev => processEvent joinedRoom selfId ev st

theorem closeRTCRun_ok (p : String) (st : RtcState) (hp : p ≠ "") :
    ∃ r, closeRTCRun p st = Except.ok r := by
  simp only [closeRTCRun]
  rw [if_neg hp]
  cases h : alookup p st.peerConn with
  | none => simp [h]
  | some pc => simp [h]

/-- C6: invoking the receiveRTC handle with reject sends the reject signal and
leaves the engine state untouched (no peer connection, no data channel); and
on the caller side a reject frame for a sender with an existing peer
connection runs the shared closeRTC teardown and skips the callback. -/
theorem C6_reject_flow (st : RtcState) (sender : String) (captured rtc : RtcMsgContent)
    (pc : PeerConn) (hreject : rtc.reject = true) (hs : sender ≠ "")
    (hpc : alookup sender st.peerConn = some pc) :
    receiveRTCRun true sender captured true st =
      Except.ok { st := st, frames := [OutFrame.rtcReject sender], events := [] } ∧
    (∃ r, closeRTCRun sender st = Except.ok r ∧
      handleRtcMsg sender rtc st =
        Except.ok { st := r.1, handle := none, cbInvoked := false, frames := [] }) := by
  refine ⟨rfl, ?_⟩
  obtain ⟨r, hr⟩ := closeRTCRun_ok sender st hs
  refine ⟨r, hr, ?_⟩
  unfold handleRtcMsg
  rw [hreject]
  simp only [hpc, Option.isSome_some, if_pos, hr]

/-- Witness for C6 at a concrete one-peer state. -/
theorem C6_reject_flow_witness :
    receiveRTCRun true "u" {} true { peerConn := [("u", ({} : PeerConn))] } =
      Except.ok { st := { peerConn := [("u", ({} : PeerConn))] }
                  frames := [OutFrame.rtcReject "u"]
                  events := [] } ∧
    (∃ r, closeRTCRun "u" ({ peerConn := [("u", ({} : PeerConn))] } : RtcState) = Except.ok r ∧
      handleRtcMsg "u" { reject := true } { peerConn := [("u", ({} : PeerConn))] } =
        Except.ok { st := r.1, handle := none, cbInvoked := false, frames := [] }) :=
  C6_reject_flow { peerConn := [("u", ({} : PeerConn))] } "u" {} { reject := true } {}
    rfl (by decide) (by decide)

/-- Concrete pre-hangup state for claim C3: an active call to peer p with two
open data channels, buffered signals and a set receiver ringing flag. -/
def c3State : RtcState :=
  { sdpOfferBuf := [("p", ["X"])]
    candBuf := [("p", ["Y"])]
    peerConn := [("p", {})]
    dataCh := [("p", [("a", ChanSt.opened), ("b", ChanSt.opened)])]
    receiverRinging := ["p"]
    callerRinging := [] }

/-- Counterexample to C3 as stated: after closeRTC on an active call the
receiver ringing flag of the peer is not purged, and an ICE candidate
arriving afterwards for that peer id is not a no-op: it changes the state by
being appended to a fresh candidate buffer. -/
theorem C3_counterexample :
    ∃ r, closeRTCRun "p" c3State = Except.ok r ∧
      r.1.receiverRinging = ["p"] ∧
      ∃ r2, handleRtcMsg "p" { candidate := some "c" } r.1 = Except.ok r2 ∧
        r2.st ≠ r.1 ∧ r2.st.candBuf = [("p", ["c"])] := by
  refine ⟨({ receiverRinging := ["p"] },
      [TeardownAct.closeChannel "a", TeardownAct.closeChannel "b",
       TeardownAct.closePeer, TeardownAct.emitConnState]), ?_, rfl, ?_⟩
  · rfl
  · refine ⟨{ st := { candBuf := [("p", ["c"])], receiverRinging := ["p"] }
              handle := none
              cbInvoked := true
              frames := [] }, rfl, by decide, rfl⟩

/-- C3 amended: hangup (closeRTC) on a peer with an active call closes every
open data channel of that peer, then closes the peer connection, emits
exactly one final connection-state event to the registered callback, and
purges the buffered offers, buffered candidates, data-channel map and
peer-connection entry.  The ringing flags are not touched, and an ICE
candidate arriving after teardown is applied to no peer connection: it is
appended to that peer's (fresh) candidate buffer and reaches the callback. -/
theorem C3_teardown_amended (st : RtcState) (p : String) (pc : PeerConn)
    (hp : p ≠ "") (hpc : alookup p st.peerConn = some pc) (hopen : pc.closed = false) :
    ∃ st' acts, closeRTCRun p st = Except.ok (st', acts) ∧
      acts = (((alookup p st.dataCh).getD []).filter (fun c => c.2 != ChanSt.closed)).map
          (fun c => TeardownAct.closeChannel c.1) ++
        [TeardownAct.closePeer, TeardownAct.emitConnState] ∧
      acts.count TeardownAct.emitConnState = 1 ∧
      alookup p st'.sdpOfferBuf = none ∧
      alookup p st'.candBuf = none ∧
      alookup p st'.dataCh = none ∧
      alookup p st'.peerConn = none ∧
      st'.receiverRinging = st.receiverRinging ∧
      st'.callerRinging = st.callerRinging ∧
      (∀ c, handleRtcMsg p { candidate := some c } st' =
        Except.ok { st := { st' with candBuf := aset p [c] st'.candBuf }
                    handle := none
                    cbInvoked := true
                    frames := [] }) := by
  unfold closeRTCRun
  rw [if_neg hp]
  dsimp only
  rw [hpc]
  dsimp only
  rw [hopen]
  refine ⟨_, _, rfl, ?_, ?_, ?_, ?_, ?_, ?_, ?_, ?_, ?_⟩
  · simp [List.append_assoc]
  · simp [List.count_append, List.count_eq_zero, List.mem_map]
  · exact alookup_adelete p st.sdpOfferBuf
  · exact alookup_adelete p st.candBuf
  · exact alookup_adelete p st.dataCh
  · exact alookup_adelete p st.peerConn
  · rfl
  · rfl
  · intro c
    have hkc : alookup p (adelete p st.candBuf) = none := alookup_adelete p st.candBuf
    have hkp : alookup p (adelete p st.peerConn) = none := alookup_adelete p st.peerConn
    simp only [handleRtcMsg, hkp, hkc, Option.isSome_none, Bool.false_eq_true, if_false,
      Option.getD_none, List.nil_append, Bool.false_and]

/-- Witness for the amended C3 at the concrete state c3State. -/
theorem C3_teardown_amended_witness :
    ∃ st' acts, closeRTCRun "p" c3State = Except.ok (st', acts) ∧
      acts = (((alookup "p" c3State.dataCh).getD []).filter (fun c => c.2 != ChanSt.closed)).map
          (fun c => TeardownAct.closeChannel c.1) ++
        [TeardownAct.closePeer, TeardownAct.emitConnState] ∧
      acts.count TeardownAct.emitConnState = 1 ∧
      alookup "p" st'.sdpOfferBuf = none ∧
      alookup "p" st'.candBuf = none ∧
      alookup "p" st'.dataCh = none ∧
      alookup "p" st'.peerConn = none ∧
      st'.receiverRinging = c3State.receiverRinging ∧
      st'.callerRinging = c3State.callerRinging ∧
      (∀ c, handleRtcMsg "p" { candidate := some c } st' =
        Except.ok { st := { st' with candBuf := aset "p" [c] st'.candBuf }
                    handle := none
                    cbInvoked := true
                    frames := [] }) :=
  C3_teardown_amended c3State "p" {} (by decide) (by decide) rfl

/-- The C1 scenario: offers O1, O2 then candidates C1, C2 arrive from sender s
before any peer connection exists, and the receiveRTC handle attached to the
first offer frame is then invoked (accept, no media, socket present). -/
def c1Run : Except SkapiErr AcceptResult :=
  match handleRtcMsg "s" { sdpoffer := some "O1" } {} with
  | Except.error e => Except.error e
  | Except.ok r1 =>
    match handleRtcMsg "s" { sdpoffer := some "O2" } r1.st with
    | Except.error e => Except.error e
    | Except.ok r2 =>
      match handleRtcMsg "s" { candidate := some "C1" } r2.st with
      | Except.error e => Except.error e
      | Except.ok r3 =>
        match handleRtcMsg "s" { candidate := some "C2" } r3.st with
        | Except.error e => Except.error e
        | Except.ok r4 =>
          match r1.handle with
          | some captured => receiveRTCRun true "s" captured false r4.st
          | none => Except.error SkapiErr.typeErr

/-- C1, evaluated at the failing input: accepting applies the buffered offers
O1, O2 in order and flushes the candidates C1, C2 after them, but then
re-applies the captured first offer O1, so the applied trace is
O1, O2, C1, C2, O1 and O1 is applied twice — against the claim of exactly
O1, O2, C1, C2 with no signal applied twice. -/
theorem C1_buffered_offer_reapplied :
    c1Run.map (fun r => ((alookup "s" r.st.peerConn).getD {}).applied) =
      Except.ok [Sig.offer "O1", Sig.offer "O2", Sig.cand "C1", Sig.cand "C2",
        Sig.offer "O1"] ∧
    c1Run.map (fun r => (((alookup "s" r.st.peerConn).getD {}).applied.count
        (Sig.offer "O1"))) = Except.ok 2 :=
  ⟨rfl, rfl⟩

theorem createDataChannels_mem_error (opts : List DataChannelOption) :
    ∀ existing : List (String × ChanSt),
      (∃ o ∈ opts, (alookup (effectiveLabel o.protocol) existing).isSome) →
      createDataChannels existing opts = Except.error SkapiErr.duplicateDataChannel := by
  induction opts with
  | nil =>
    intro existing h
    rcases h with ⟨o, ho, _⟩
    simp at ho
  | cons o rest ih =>
    intro existing h
    by_cases hhead : ((alookup (effectiveLabel o.protocol) existing).isSome = true)
    · simp [createDataChannels, hhead]
    · rcases h with ⟨o', ho', hsome⟩
      rcases List.mem_cons.mp ho' with heq | hmem
      · rw [heq] at hsome
        exact absurd hsome hhead
      · simp only [createDataChannels]
        rw [if_neg hhead]
        apply ih
        refine ⟨o', hmem, ?_⟩
        by_cases hlab : effectiveLabel o'.protocol = effectiveLabel o.protocol
        · rw [hlab, alookup_aset_self]
          rfl
        · rw [alookup_aset_ne (effectiveLabel o.protocol) (effectiveLabel o'.protocol)
            ChanSt.opened existing hlab]
          exact hsome

theorem createDataChannels_dup_error (opts : List DataChannelOption) :
    ∀ existing : List (String × ChanSt),
      ¬ (opts.map (fun o => effectiveLabel o.protocol)).Nodup →
      createDataChannels existing opts = Except.error SkapiErr.duplicateDataChannel := by
  induction opts with
  | nil =>
    intro existing h
    simp at h
  | cons o rest ih =>
    intro existing h
    by_cases hhead : ((alookup (effectiveLabel o.protocol) existing).isSome = true)
    · simp [createDataChannels, hhead]
    · simp only [createDataChannels]
      rw [if_neg hhead]
      rw [List.map_cons, List.nodup_cons] at h
      by_cases hmem : effectiveLabel o.protocol ∈ rest.map (fun o => effectiveLabel o.protocol)
      · rcases List.mem_map.mp hmem with ⟨o', ho', hlab⟩
        apply createDataChannels_mem_error
        refine ⟨o', ho', ?_⟩
        rw [hlab, alookup_aset_self]
        rfl
      · have hnd : ¬ (rest.map (fun o => effectiveLabel o.protocol)).Nodup := by
          intro hn
          exact h ⟨hmem, hn⟩
        exact ih _ hnd

theorem createDataChannels_ok (opts : List DataChannelOption) :
    ∀ existing : List (String × ChanSt),
      (opts.map (fun o => o.protocol)).Nodup →
      (∀ o ∈ opts, o.protocol ≠ "" ∧ alookup o.protocol existing = none) →
      createDataChannels existing opts =
        Except.ok (existing ++ opts.map (fun o => (o.protocol, ChanSt.opened))) := by
  induction opts with
  | nil =>
    intro existing _ _
    simp [createDataChannels]
  | cons o rest ih =>
    intro existing hnd hh
    have ho := hh o (List.mem_cons_self o rest)
    have heff : effectiveLabel o.protocol = o.protocol := by
      unfold effectiveLabel
      rw [if_neg ho.1]
    rw [List.map_cons, List.nodup_cons] at hnd
    simp only [createDataChannels, heff, ho.2, Option.isSome_none, Bool.false_eq_true,
      if_false]
    have hrest : ∀ o' ∈ rest, o'.protocol ≠ "" ∧
        alookup o'.protocol (aset o.protocol ChanSt.opened existing) = none := by
      intro o' ho'
      have h1 := hh o' (List.mem_cons_of_mem o ho')
      refine ⟨h1.1, ?_⟩
      have hne : o'.protocol ≠ o.protocol := by
        intro hq
        exact hnd.1 (hq ▸ List.mem_map_of_mem (fun o => o.protocol) ho')
      rw [alookup_aset_ne o.protocol o'.protocol ChanSt.opened existing hne]
      exact h1.2
    rw [ih _ hnd.2 hrest, aset_of_alookup_none o.protocol ChanSt.opened existing ho.2]
    simp

/-- C9: in connectRTC's channel creation, requesting the same protocol label
twice, or a label that already exists for the peer, throws the duplicate
data-channel precondition error; with pairwise distinct (nonempty) labels
none of which exists yet, exactly one data channel is created per requested
label. -/
theorem C9_duplicate_channel_labels (existing : List (String × ChanSt))
    (opts : List DataChannelOption) :
    (¬ (opts.map (fun o => effectiveLabel o.protocol)).Nodup →
      createDataChannels existing opts = Except.error SkapiErr.duplicateDataChannel) ∧
    ((∃ o ∈ opts, (alookup (effectiveLabel o.protocol) existing).isSome) →
      createDataChannels existing opts = Except.error SkapiErr.duplicateDataChannel) ∧
    ((opts.map (fun o => o.protocol)).Nodup →
      (∀ o ∈ opts, o.protocol ≠ "" ∧ alookup o.protocol existing = none) →
      createDataChannels existing opts =
        Except.ok (existing ++ opts.map (fun o => (o.protocol, ChanSt.opened)))) :=
  ⟨createDataChannels_dup_error opts existing,
   createDataChannels_mem_error opts existing,
   fun h1 h2 => createDataChannels_ok opts existing h1 h2⟩

/-- Witness for C9: duplicate request, label clash with an existing channel,
and a successful two-label request, at concrete inputs. -/
theorem C9_duplicate_channel_labels_witness :
    createDataChannels [] [{ protocol := "a" }, { protocol := "a" }] =
      Except.error SkapiErr.duplicateDataChannel ∧
    createDataChannels [("a", ChanSt.opened)] [{ protocol := "a" }] =
      Except.error SkapiErr.duplicateDataChannel ∧
    createDataChannels [] [{ protocol := "a" }, { protocol := "b" }] =
      Except.ok [("a", ChanSt.opened), ("b", ChanSt.opened)] := by
  refine ⟨?_, ?_, ?_⟩
  · exact (C9_duplicate_channel_labels [] [{ protocol := "a" }, { protocol := "a" }]).1
      (by decide)
  · exact (C9_duplicate_channel_labels [("a", ChanSt.opened)] [{ protocol := "a" }]).2.1
      ⟨{ protocol := "a" }, by decide, by decide⟩
  · exact (C9_duplicate_channel_labels [] [{ protocol := "a" }, { protocol := "b" }]).2.2
      (by decide) (by decide)

/-- C7: an unfiltered getRealtimeUsers call while an unfiltered query for the
same group is outstanding returns the same pending promise and issues no new
request; a fresh unfiltered call records its promise as pending so an
immediate second call returns it unchanged; and settling the query removes
the pending entry whether it succeeded or failed. -/
theorem C7_query_dedup (st : QueryState) (group : String) :
    (∀ pid, alookup group st.roomPending = some pid →
      getRealtimeUsersRun group none st = (pid, st)) ∧
    (alookup group st.roomPending = none →
      getRealtimeUsersRun group none (getRealtimeUsersRun group none st).2 =
        ((getRealtimeUsersRun group none st).1, (getRealtimeUsersRun group none st).2)) ∧
    (∀ success, alookup group (settleQuery group success st).roomPending = none) := by
  refine ⟨?_, ?_, ?_⟩
  · intro pid hpid
    simp [getRealtimeUsersRun, hpid]
  · intro hnone
    simp only [getRealtimeUsersRun, hnone]
    simp [alookup_aset_self]
  · intro success
    exact alookup_adelete group st.roomPending

/-- Witness for C7: dedup against a pending entry, the fresh-call pair, and
settlement, at concrete states. -/
theorem C7_query_dedup_witness :
    getRealtimeUsersRun "g" none
        { roomPending := [("g", 5)], nextId := 7, requestLog := [5] } =
      (5, { roomPending := [("g", 5)], nextId := 7, requestLog := [5] }) ∧
    getRealtimeUsersRun "g" none (getRealtimeUsersRun "g" none ({} : QueryState)).2 =
      ((getRealtimeUsersRun "g" none ({} : QueryState)).1,
       (getRealtimeUsersRun "g" none ({} : QueryState)).2) ∧
    alookup "g" (settleQuery "g" true
        ({ roomPending := [("g", 5)] } : QueryState)).roomPending = none := by
  refine ⟨?_, ?_, ?_⟩
  · exact (C7_query_dedup { roomPending := [("g", 5)], nextId := 7, requestLog := [5] }
      "g").1 5 (by decide)
  · exact (C7_query_dedup ({} : QueryState) "g").2.1 (by decide)
  · exact (C7_query_dedup ({ roomPending := [("g", 5)] } : QueryState) "g").2.2 true

/-- C8: an inbound frame whose payload cannot be URL-decoded and JSON-parsed
is dropped by socket.onmessage: the realtime callback is not invoked, no
error is surfaced, and the session state is unchanged. -/
theorem C8_drop_unparseable (parse : String → Option InEvent) (joinedRoom : Option String)
    (selfId raw : String) (st : SessionState) (h : parse raw = none) :
    socketOnMessage parse joinedRoom selfId raw st = Except.ok (st, false) := by
  simp [socketOnMessage, h]

/-- Witness for C8 at a concrete parser and frame. -/
theorem C8_drop_unparseable_witness :
    socketOnMessage (fun _ => none) (some "R1") "me" "garbage" ({} : SessionState) =
      Except.ok (({} : SessionState), false) :=
  C8_drop_unparseable (fun _ => none) (some "R1") "me" "garbage" {} rfl
